import Mathlib

/-!
Verification of the session/token lifecycle and resilient request layer of the
ripenred-seller dashboard, shallowly embedded from:
  - src/assets/utils/api.js        (class AuthManager)
  - src/assets/utils/error-handler.js
  - src/unnamed/part_000           (dashboard.js: axios interceptors, checkAuthentication, logout)
Timestamps are modelled as natural numbers of milliseconds since the epoch;
nullable JavaScript values are modelled as `Option`.
-/

namespace RipenRed

/-- JavaScript truthiness of a nullable string (`!!x`): `null` and the empty
string are falsy, every other string is truthy. -/
def truthy : Option String → Bool
  | none => false
  | some s => s ≠ ""

/-- The millisecond value of `new Date(x)` for a nullable timestamp `x`:
JavaScript coerces `null` to `0` (the epoch), so an absent expiry compares as
the epoch, not as "no expiry". -/
def jsDateMs : Option Nat → Nat
  | none => 0
  | some t => t

/-- The four localStorage keys the session code reads and writes:
`sellerAuthToken`, `refreshToken`, `tokenExpiry`, `sellerInfo`
(the expiry is stored as an ISO string; we model it by its millisecond value,
the serialization being injective). -/
structure LStore where
  sellerAuthToken : Option String
  refreshToken : Option String
  tokenExpiry : Option Nat
  sellerInfo : Option String
deriving Repr, DecidableEq

/-- The in-memory fields of `AuthManager` (src/assets/utils/api.js, constructor):
`authToken`, `refreshToken`, `tokenExpiry`, `sellerInfo`, all initially null. -/
structure AMem where
  authToken : Option String
  refreshToken : Option String
  tokenExpiry : Option Nat
  sellerInfo : Option String
deriving Repr, DecidableEq

/-- Full observable state of an `AuthManager` instance: its memory, the
persistent store, the delays of the `setTimeout` refresh timers it has
scheduled (the code never keeps a timer id, so none can be cancelled), and a
count of logout signals fired (notification plus scheduled navigation). -/
structure AMState where
  mem : AMem
  store : LStore
  timers : List Int
  signals : Nat
deriving Repr, DecidableEq

/-- Model of `AuthManager.setupTokenRefresh` (api.js lines 64-72): if `tokenExpiry` is
set and strictly in the future, schedule `refreshAuthToken` with delay
`timeToExpiry - 5*60*1000` milliseconds; the delay may be negative (JavaScript
then fires the callback immediately), and no previously scheduled timer is
cancelled. -/
def setupTokenRefresh (now : Nat) (st : AMState) : AMState :=
  match st.mem.tokenExpiry with
  | none => st
  | some e =>
    let timeToExpiry : Int := (e : Int) - (now : Int)
    if timeToExpiry > 0 then
      { st with timers := st.timers ++ [timeToExpiry - 5 * 60 * 1000] }
    else st

/-- Model of `AuthManager.setTokens(token, refreshToken, expiresIn)` (api.js lines
97-107): stores the three fields in memory, computes
`tokenExpiry = Date.now() + expiresIn*1000`, writes all three localStorage
keys, then calls `setupTokenRefresh`. -/
def setTokens (now : Nat) (token rtok : String) (expiresIn : Nat) (st : AMState) : AMState :=
  let expiry := now + expiresIn * 1000
  let st1 : AMState :=
    { st with
      mem := { st.mem with
                authToken := some token
                refreshToken := some rtok
                tokenExpiry := some expiry }
      store := { st.store with
                  sellerAuthToken := some token
                  refreshToken := some rtok
                  tokenExpiry := some expiry } }
  setupTokenRefresh now st1

/-- Model of `AuthManager.isAuthenticated` (api.js lines 109-111):
`!!this.authToken && new Date(this.tokenExpiry) > new Date()`.
A null `tokenExpiry` coerces to the epoch, so the comparison is false. -/
def isAuthenticated (now : Nat) (st : AMState) : Bool :=
  truthy st.mem.authToken && decide (jsDateMs st.mem.tokenExpiry > now)

/-- Model of `AuthManager.logout` (api.js lines 120-135): removes the four localStorage
keys, nulls the four memory fields, shows one notification and schedules one
navigation to the login page (modelled as one logout signal). No timer is
cancelled: the code never stores a timeout id. -/
def logout (st : AMState) : AMState :=
  { st with
    mem := ⟨none, none, none, none⟩
    store := ⟨none, none, none, none⟩
    signals := st.signals + 1 }

/-- Model of `AuthManager.init` (api.js lines 46-62), run at startup with a fresh
(all-null) memory: reads the four localStorage keys, parses `sellerInfo` with
`JSON.parse` inside try/catch (on failure the field keeps its null initial
value), then calls `setupTokenRefresh`. `pj` models `JSON.parse`, returning
`none` when the stored string does not parse. -/
def init (pj : String → Option String) (now : Nat) (store : LStore)
    (timers : List Int) (signals : Nat) : AMState :=
  let mem : AMem :=
    { authToken := store.sellerAuthToken
      refreshToken := store.refreshToken
      tokenExpiry := store.tokenExpiry
      sellerInfo := store.sellerInfo.bind pj }
  setupTokenRefresh now { mem := mem, store := store, timers := timers, signals := signals }

/-- An empty session state: fresh memory, empty storage, no timers. -/
def emptyState : AMState :=
  { mem := ⟨none, none, none, none⟩
    store := ⟨none, none, none, none⟩
    timers := []
    signals := 0 }

/-- A session holding an access token but no stored expiry. -/
def tokenNoExpiryState : AMState :=
  { emptyState with mem := { emptyState.mem with authToken := some "tok" } }

/-- C4 counterexample: a session with an access token present and no stored
expiry is NOT authenticated (the code coerces the null expiry to the epoch, so
`new Date(null) > new Date()` is false), contradicting the claim that such a
session is considered authenticated. -/
theorem C4_counterexample :
    (tokenNoExpiryState.mem.authToken).isSome = true ∧
    tokenNoExpiryState.mem.tokenExpiry = none ∧
    isAuthenticated 1000 tokenNoExpiryState = false := by
  refine ⟨rfl, rfl, ?_⟩
  decide

/-- C4 amended: `isAuthenticated()` returns true iff the access token is
present (and nonempty) AND the expiry timestamp is present and strictly in the
future; a session with an access token but no stored expiry is NOT
authenticated. -/
theorem C4_authenticated_iff (now : Nat) (st : AMState) :
    isAuthenticated now st = true ↔
      (truthy st.mem.authToken = true ∧ ∃ e, st.mem.tokenExpiry = some e ∧ now < e) := by
  unfold isAuthenticated jsDateMs
  cases h : st.mem.tokenExpiry with
  | none => simp [h]
  | some e =>
    simp only [h, Bool.and_eq_true, decide_eq_true_eq]
    constructor
    · rintro ⟨h1, h2⟩; exact ⟨h1, e, rfl, h2⟩
    · rintro ⟨h1, e2, he, h2⟩
      cases Option.some.inj he
      exact ⟨h1, h2⟩

/-- Helper: the memory fields written by `setTokens`. -/
lemma setTokens_mem (now : Nat) (token rtok : String) (expiresIn : Nat) (st : AMState) :
    (setTokens now token rtok expiresIn st).mem =
      { authToken := some token, refreshToken := some rtok,
        tokenExpiry := some (now + expiresIn * 1000), sellerInfo := st.mem.sellerInfo } := by
  unfold setTokens setupTokenRefresh
  simp only
  split <;> rfl

/-- Helper: the store fields written by `setTokens`. -/
lemma setTokens_store (now : Nat) (token rtok : String) (expiresIn : Nat) (st : AMState) :
    (setTokens now token rtok expiresIn st).store =
      { sellerAuthToken := some token, refreshToken := some rtok,
        tokenExpiry := some (now + expiresIn * 1000), sellerInfo := st.store.sellerInfo } := by
  unfold setTokens setupTokenRefresh
  simp only
  split <;> rfl

/-- Helper: the timers scheduled by `setTokens`: a new timer with delay
`expiresIn*1000 − 300000` is appended exactly when the new expiry is in the
future, i.e. when `expiresIn > 0`. -/
lemma setTokens_timers (now : Nat) (token rtok : String) (expiresIn : Nat) (st : AMState) :
    (setTokens now token rtok expiresIn st).timers =
      (if 0 < expiresIn then st.timers ++ [(expiresIn * 1000 : Int) - 5 * 60 * 1000]
       else st.timers) := by
  unfold setTokens setupTokenRefresh
  simp only
  have hc : ((now + expiresIn * 1000 : Nat) : Int) - (now : Int) = ((expiresIn * 1000 : Nat) : Int) := by
    push_cast
    ring
  rw [hc]
  by_cases h : 0 < expiresIn
  · have hpos : (0 : Int) < ((expiresIn * 1000 : Nat) : Int) := by
      push_cast
      positivity
    simp [hpos, h]
  · have h0 : expiresIn = 0 := by omega
    subst h0
    simp

/-- Helper: the memory produced by `init` from a stored session. -/
lemma init_mem (pj : String → Option String) (now : Nat) (store : LStore)
    (timers : List Int) (signals : Nat) :
    (init pj now store timers signals).mem =
      { authToken := store.sellerAuthToken, refreshToken := store.refreshToken,
        tokenExpiry := store.tokenExpiry, sellerInfo := store.sellerInfo.bind pj } := by
  unfold init setupTokenRefresh
  simp only
  split <;> first | rfl | (split <;> rfl)

/-- C5 counterexample: `setTokens(_, _, 60)` at time 0 gives an expiry 60
seconds ahead, so the "5 minutes before expiry" offset is already in the past;
the claim says no proactive timer is then scheduled, but the code schedules one
(with negative delay `60000 - 300000`, which JavaScript fires immediately),
because `setupTokenRefresh` only checks that the expiry itself is in the
future. -/
theorem C5_counterexample :
    (setTokens 0 "a" "r" 60 emptyState).timers = [(60000 : Int) - 300000] ∧
    ((60000 : Int) - 300000 < 0) := by
  constructor
  · rfl
  · decide

/-- C5 amended: `setTokens(access, refresh, expiresInSeconds)` stores all
three fields in memory and in the persistent store, sets
`expiresAt = now + expiresInSeconds*1000`, and appends a refresh timer with
delay `expiresInSeconds*1000 − 5 minutes` whenever the expiry itself is in the
future (i.e. whenever `expiresInSeconds > 0`) — even when that delay is
negative, in which case the timer fires immediately rather than being skipped;
no timer is scheduled only when the expiry is not in the future, and
previously scheduled timers are never cancelled or replaced. -/
theorem C5_setTokens_spec (now : Nat) (token rtok : String) (expiresIn : Nat) (st : AMState) :
    (setTokens now token rtok expiresIn st).mem.authToken = some token ∧
    (setTokens now token rtok expiresIn st).mem.refreshToken = some rtok ∧
    (setTokens now token rtok expiresIn st).mem.tokenExpiry = some (now + expiresIn * 1000) ∧
    (setTokens now token rtok expiresIn st).store.sellerAuthToken = some token ∧
    (setTokens now token rtok expiresIn st).store.refreshToken = some rtok ∧
    (setTokens now token rtok expiresIn st).store.tokenExpiry = some (now + expiresIn * 1000) ∧
    (setTokens now token rtok expiresIn st).timers =
      (if 0 < expiresIn then st.timers ++ [(expiresIn * 1000 : Int) - 5 * 60 * 1000]
       else st.timers) := by
  rw [setTokens_mem, setTokens_store, setTokens_timers]
  simp

/-- A session state with one pending refresh timer, used to show `logout` does
not cancel timers. -/
def timerState : AMState := { emptyState with timers := [42] }

/-- C6 counterexample: `logout` leaves a scheduled proactive refresh timer in
place (the code stores no timeout id and calls no `clearTimeout`),
contradicting the claim that `clear()` cancels any scheduled proactive
refresh timer. -/
theorem C6_counterexample :
    timerState.timers = [42] ∧ (logout timerState).timers = [42] := by
  exact ⟨rfl, rfl⟩

/-- C6 amended: `clear()` (= `AuthManager.logout`) erases all four session
fields and all four persisted keys and fires one logout signal, but does NOT
cancel scheduled proactive refresh timers; immediately after `clear()`,
`isAuthenticated()` is false, and immediately after `setTokens(A, R, 3600)`
with a nonempty token, `isAuthenticated()` is true. -/
theorem C6_clear_spec (now : Nat) (a r : String) (st : AMState) (ha : a ≠ "") :
    (logout st).mem = ⟨none, none, none, none⟩ ∧
    (logout st).store = ⟨none, none, none, none⟩ ∧
    (logout st).timers = st.timers ∧
    (logout st).signals = st.signals + 1 ∧
    isAuthenticated now (logout st) = false ∧
    isAuthenticated now (setTokens now a r 3600 st) = true := by
  refine ⟨rfl, rfl, rfl, rfl, ?_, ?_⟩
  · simp [isAuthenticated, logout, truthy]
  · rw [isAuthenticated, setTokens_mem]
    simp [truthy, jsDateMs, ha]

/-- C6 witness: concrete instance of the amended clear/setTokens behavior. -/
theorem C6_clear_spec_witness :
    (logout emptyState).timers = emptyState.timers ∧
    isAuthenticated 5 (logout emptyState) = false ∧
    isAuthenticated 5 (setTokens 5 "A" "R" 3600 emptyState) = true := by
  have h := C6_clear_spec 5 "A" "R" emptyState (by decide)
  exact ⟨h.2.2.1, h.2.2.2.2.1, h.2.2.2.2.2⟩

/-- C7: persistence round-trip. `setTokens` writes the three token keys;
`sellerInfo` in storage is untouched. After a process restart (fresh all-null
memory), `init` reloads all four keys. Provided the stored profile string
parses back to the in-memory profile (the coherence the login flow
establishes, since `setTokens` itself never writes the profile), the reloaded
memory observes the same accessToken, refreshToken, expiresAt and profile, and
the session is authenticated both before and after the restart as long as the
restart happens before the expiry. -/
theorem C7_persistence_roundtrip (pj : String → Option String) (now t2 : Nat)
    (token rtok : String) (expiresIn : Nat) (st : AMState)
    (hcoh : st.store.sellerInfo.bind pj = st.mem.sellerInfo)
    (htok : token ≠ "") (hpos : 0 < expiresIn) (ht2 : t2 < now + expiresIn * 1000) :
    (init pj t2 (setTokens now token rtok expiresIn st).store [] 0).mem.authToken
      = (setTokens now token rtok expiresIn st).mem.authToken ∧
    (init pj t2 (setTokens now token rtok expiresIn st).store [] 0).mem.refreshToken
      = (setTokens now token rtok expiresIn st).mem.refreshToken ∧
    (init pj t2 (setTokens now token rtok expiresIn st).store [] 0).mem.tokenExpiry
      = (setTokens now token rtok expiresIn st).mem.tokenExpiry ∧
    (init pj t2 (setTokens now token rtok expiresIn st).store [] 0).mem.sellerInfo
      = (setTokens now token rtok expiresIn st).mem.sellerInfo ∧
    isAuthenticated now (setTokens now token rtok expiresIn st) = true ∧
    isAuthenticated t2 (init pj t2 (setTokens now token rtok expiresIn st).store [] 0) = true := by
  rw [isAuthenticated, isAuthenticated, init_mem, setTokens_store, setTokens_mem]
  simp only [truthy, jsDateMs, hcoh]
  simp [htok]
  omega

/-- C7 witness: concrete round-trip with `JSON.parse` modelled as identity on
the (absent) stored profile. -/
theorem C7_persistence_roundtrip_witness :
    isAuthenticated 10
      (init (fun s => some s) 10 (setTokens 0 "A" "R" 3600 emptyState).store [] 0) = true := by
  have h := C7_persistence_roundtrip (fun s => some s) 0 10 "A" "R" 3600 emptyState
    (by rfl) (by decide) (by decide) (by decide)
  exact h.2.2.2.2.2

/-! ## The dashboard request layer (src/unnamed/part_000) -/

/-- Result of one dispatch of an HTTP request through axios: a 2xx response
resolves the promise with a body; a non-2xx response rejects with an error
carrying `error.response.status`; a network-class failure rejects with an
error carrying no response. -/
inductive ReqResult where
  | ok (body : String)
  | httpErr (status : Nat)
  | netFail
deriving Repr, DecidableEq

/-- Model of `error.response?.status` of a rejected dispatch: present only for HTTP
errors. -/
def statusOf : ReqResult → Option Nat
  | .ok _ => none
  | .httpErr s => some s
  | .netFail => none

/-- Result of one `fetch` of the `/auth/refresh` endpoint as observed by the
dashboard 401 handler: the fetch may reject (network error), `response.json()`
may throw (non-JSON body), or a JSON body is obtained carrying optional
`token`, `refreshToken` and `expiresIn` fields (a non-2xx refresh response
does not throw — `fetch` resolves and the body simply lacks a usable
`token`). -/
inductive RefreshResult where
  | netThrow
  | parseThrow
  | body (token : Option String) (rtok : Option String) (expIn : Option Nat)
deriving Repr, DecidableEq

/-- The `if (data.token)` test of the 401 handler: the refresh yields a usable
token exactly when a JSON body was obtained and its `token` field is truthy. -/
def refreshGivesToken : RefreshResult → Option String
  | .body tok _ _ => if truthy tok then tok else none
  | _ => none

/-- Observable state of the dashboard page (src/unnamed/part_000): the global
`authToken` and `sellerInfo` variables, localStorage, and counters for refresh
dispatches, replays of the original request, `logout()` calls, logout signals
(notification plus scheduled navigation) and immediate redirects. -/
structure DashState where
  authToken : Option String
  sellerInfoVar : Option String
  store : LStore
  refreshCalls : Nat
  replays : Nat
  logoutCalls : Nat
  signals : Nat
  redirects : Nat
deriving Repr, DecidableEq

/-- The dashboard `logout()` (part_000): removes only the `sellerAuthToken`
and `sellerInfo` localStorage keys, nulls the two globals, shows one
notification and schedules one navigation to the login page. -/
def dashLogout (st : DashState) : DashState :=
  { st with
    store := { st.store with sellerAuthToken := none, sellerInfo := none }
    authToken := none
    sellerInfoVar := none
    logoutCalls := st.logoutCalls + 1
    signals := st.signals + 1 }

/-- Final outcome of a request issued through `axiosInstance`. -/
inductive SendOutcome where
  | success (body : String)
  | rejected (r : ReqResult)
  | outOfFuel
deriving Repr, DecidableEq

/-- The dashboard response interceptor (part_000 lines 29-58) together with
the dispatch of the request it guards. `reqs n` is the outcome of the n-th
dispatch of the logical request (dispatch 0 is the original, dispatch k+1 the
k-th replay `axiosInstance(error.config)`), and `refs k` the outcome of the
k-th refresh fetch. On a 401 rejection the handler reads `refreshToken` from
localStorage; if it is truthy it dispatches one refresh fetch; if that yields
a usable token it stores it (global `authToken` and the `sellerAuthToken` key
only) and replays the request through `axiosInstance` — so the rejection of the
replay re-enters this very interceptor, there being no one-shot flag. In
every refresh-failure case (`catch` or missing token), and when no refresh
token is stored, it calls `logout()` and rejects with the original error.
Non-401 rejections are rejected unchanged. `fuel` bounds the recursion depth
(the source has no such bound). -/
def dispatchLoop (reqs : Nat → ReqResult) (refs : Nat → RefreshResult) :
    Nat → Nat → DashState → SendOutcome × DashState
  | 0, _, st => (.outOfFuel, st)
  | fuel + 1, attempt, st =>
    match reqs attempt with
    | .ok b => (.success b, st)
    | r =>
      if statusOf r = some 401 then
        if truthy st.store.refreshToken then
          let st1 := { st with refreshCalls := st.refreshCalls + 1 }
          match refreshGivesToken (refs st.refreshCalls) with
          | some t =>
            let st2 := { st1 with
                         authToken := some t
                         store := { st1.store with sellerAuthToken := some t }
                         replays := st1.replays + 1 }
            dispatchLoop reqs refs fuel (attempt + 1) st2
          | none => (.rejected r, dashLogout st1)
        else (.rejected r, dashLogout st)
      else (.rejected r, st)

/-- One logical request issued through `axiosInstance`, starting at dispatch 0. -/
def send (reqs : Nat → ReqResult) (refs : Nat → RefreshResult) (fuel : Nat)
    (st : DashState) : SendOutcome × DashState :=
  dispatchLoop reqs refs fuel 0 st

/-- Environment for the C2 counterexample: the original request and its first
replay both return 401, the second replay succeeds; every refresh fetch
succeeds with a fresh token. -/
def c2Reqs : Nat → ReqResult := fun n => if n < 2 then .httpErr 401 else .ok "done"

/-- Refresh endpoint that always returns a usable token. -/
def c2Refs : Nat → RefreshResult := fun _ => .body (some "T2") none none

/-- A dashboard state holding a stored refresh token. -/
def c2Start : DashState :=
  { authToken := some "T1"
    sellerInfoVar := none
    store := { sellerAuthToken := some "T1", refreshToken := some "R",
               tokenExpiry := none, sellerInfo := none }
    refreshCalls := 0
    replays := 0
    logoutCalls := 0
    signals := 0
    redirects := 0 }

/-- C2 counterexample: a send whose original dispatch returns 401 and whose
refresh succeeds, but whose replay itself returns 401 again: the code performs
TWO refresh calls and TWO replays (the replay goes through `axiosInstance`
and re-enters the interceptor; no one-shot flag exists), contradicting the
claim that exactly one refresh and one replay are issued and that a second 401
is returned as-is. -/
theorem C2_counterexample :
    (send c2Reqs c2Refs 5 c2Start).2.refreshCalls = 2 ∧
    (send c2Reqs c2Refs 5 c2Start).2.replays = 2 ∧
    (send c2Reqs c2Refs 5 c2Start).1 = .success "done" := by
  refine ⟨?_, ?_, ?_⟩ <;> rfl

/-- C2 amended: when a send receives a 401 and the refresh succeeds, the
original request is replayed once with the new token attached and the result of
the replay is returned as the final outcome, with exactly one refresh and one
replay and no logout — PROVIDED the replay does not itself return 401; a
replay that returns 401 again re-enters the refresh flow (there is no one-shot
replay flag), triggering a further refresh. -/
theorem C2_refresh_replay (reqs : Nat → ReqResult) (refs : Nat → RefreshResult)
    (st : DashState) (t : String) (fuel : Nat)
    (h0 : reqs 0 = .httpErr 401)
    (hrt : truthy st.store.refreshToken = true)
    (href : refreshGivesToken (refs st.refreshCalls) = some t)
    (hreplay : statusOf (reqs 1) ≠ some 401) :
    (send reqs refs (fuel + 2) st).2.refreshCalls = st.refreshCalls + 1 ∧
    (send reqs refs (fuel + 2) st).2.replays = st.replays + 1 ∧
    (send reqs refs (fuel + 2) st).2.logoutCalls = st.logoutCalls ∧
    (send reqs refs (fuel + 2) st).2.authToken = some t ∧
    (send reqs refs (fuel + 2) st).1 =
      (match reqs 1 with
       | .ok b => SendOutcome.success b
       | r => SendOutcome.rejected r) := by
  unfold send
  rw [dispatchLoop, h0]
  simp only [statusOf, hrt, href, if_pos rfl, if_true]
  rw [dispatchLoop]
  rcases h1 : reqs 1 with b | s | _
  · simp
  · have hs : s ≠ 401 := by
      intro hcontra
      exact hreplay (by rw [h1, hcontra]; rfl)
    simp [statusOf, hs]
  · simp [statusOf]

/-- C2 witness: concrete instance of the amended refresh-and-replay behavior,
with a replay that succeeds. -/
theorem C2_refresh_replay_witness :
    (send (fun n => if n = 0 then .httpErr 401 else .ok "ok") c2Refs 2 c2Start).2.refreshCalls
      = 1 ∧
    (send (fun n => if n = 0 then .httpErr 401 else .ok "ok") c2Refs 2 c2Start).1
      = SendOutcome.success "ok" := by
  have h := C2_refresh_replay (fun n => if n = 0 then .httpErr 401 else .ok "ok") c2Refs
    c2Start "T2" 0 (by rfl) (by rfl) (by rfl) (by simp [statusOf])
  exact ⟨h.1, h.2.2.2.2⟩

/-- C3: when a send receives a 401, a refresh token is stored, and the refresh
attempt fails in any way (fetch network error, non-JSON body, or a body with
no usable token — which covers a non-2xx refresh response), the dashboard
calls `logout()` exactly once, fires exactly one logout signal, and rejects
with the original 401 as the final outcome. -/
theorem C3_refresh_failure (reqs : Nat → ReqResult) (refs : Nat → RefreshResult)
    (st : DashState) (fuel : Nat)
    (h0 : reqs 0 = .httpErr 401)
    (hrt : truthy st.store.refreshToken = true)
    (href : refreshGivesToken (refs st.refreshCalls) = none) :
    (send reqs refs (fuel + 1) st).1 = .rejected (.httpErr 401) ∧
    (send reqs refs (fuel + 1) st).2.logoutCalls = st.logoutCalls + 1 ∧
    (send reqs refs (fuel + 1) st).2.signals = st.signals + 1 ∧
    (send reqs refs (fuel + 1) st).2.refreshCalls = st.refreshCalls + 1 := by
  unfold send
  rw [dispatchLoop, h0]
  simp [statusOf, hrt, href, dashLogout]

/-- C3 witness: concrete 401 with a refresh endpoint answering 400 (a JSON
body with no token). -/
theorem C3_refresh_failure_witness :
    (send (fun _ => .httpErr 401) (fun _ => .body none none none) 1 c2Start).1
      = .rejected (.httpErr 401) ∧
    (send (fun _ => .httpErr 401) (fun _ => .body none none none) 1 c2Start).2.logoutCalls
      = 1 := by
  have h := C3_refresh_failure (fun _ => .httpErr 401) (fun _ => .body none none none)
    c2Start 0 (by rfl) (by rfl) (by rfl)
  exact ⟨h.1, h.2.1⟩

/-- C9: after a successful 401-triggered refresh, only the global `authToken`
and the persisted `sellerAuthToken` key hold the new token; the persisted
`refreshToken` and `tokenExpiry` entries are unchanged, even when the refresh
response carried a new refresh token or expiry (the handler reads only
`data.token`). -/
theorem C9_refresh_frame (reqs : Nat → ReqResult) (refs : Nat → RefreshResult)
    (st : DashState) (t : String) (fuel : Nat)
    (h0 : reqs 0 = .httpErr 401)
    (hrt : truthy st.store.refreshToken = true)
    (href : refreshGivesToken (refs st.refreshCalls) = some t)
    (hreplay : ∃ b, reqs 1 = .ok b) :
    (send reqs refs (fuel + 2) st).2.store.refreshToken = st.store.refreshToken ∧
    (send reqs refs (fuel + 2) st).2.store.tokenExpiry = st.store.tokenExpiry ∧
    (send reqs refs (fuel + 2) st).2.store.sellerAuthToken = some t ∧
    (send reqs refs (fuel + 2) st).2.authToken = some t := by
  obtain ⟨b, hb⟩ := hreplay
  unfold send
  rw [dispatchLoop, h0]
  simp only [statusOf, hrt, href, if_pos rfl, if_true]
  rw [dispatchLoop, hb]
  simp

/-- C9 witness: refresh response carrying a new refresh token and expiry; the
persisted refreshToken and tokenExpiry keys keep their old values. -/
theorem C9_refresh_frame_witness :
    (send (fun n => if n = 0 then .httpErr 401 else .ok "ok")
       (fun _ => .body (some "T2") (some "R2") (some 9999)) 2 c2Start).2.store.refreshToken
      = some "R" ∧
    (send (fun n => if n = 0 then .httpErr 401 else .ok "ok")
       (fun _ => .body (some "T2") (some "R2") (some 9999)) 2 c2Start).2.store.sellerAuthToken
      = some "T2" := by
  have h := C9_refresh_frame (fun n => if n = 0 then .httpErr 401 else .ok "ok")
    (fun _ => .body (some "T2") (some "R2") (some 9999)) c2Start "T2" 0
    (by rfl) (by rfl) (by rfl) ⟨"ok", by rfl⟩
  exact ⟨h.1, h.2.2.1⟩

/-- Model of `checkAuthentication()` (part_000 lines 246-266): loads the global
`authToken` from the `sellerAuthToken` key; if it is falsy, redirects to the
login page immediately and returns false; otherwise parses `sellerInfo` if
present (a parse failure keeps the previous global) and returns true. The
stored expiry is never read. -/
def checkAuthentication (pj : String → Option String) (st : DashState) : Bool × DashState :=
  let st1 := { st with authToken := st.store.sellerAuthToken }
  if truthy st1.authToken = false then
    (false, { st1 with redirects := st1.redirects + 1 })
  else
    let st2 :=
      match st1.store.sellerInfo with
      | some s =>
        match pj s with
        | some v => { st1 with sellerInfoVar := some v }
        | none => st1
      | none => st1
    (true, st2)

/-- C10: the dashboard startup gate passes (returns true, no redirect) for
every stored session whose access token is present (truthy), regardless of the
stored expiry, and its verdict never depends on the `tokenExpiry` entry at
all. -/
theorem C10_startup_gate (pj : String → Option String) (st : DashState) (t : String)
    (h : st.store.sellerAuthToken = some t) (ht : t ≠ "") :
    (checkAuthentication pj st).1 = true ∧
    (checkAuthentication pj st).2.redirects = st.redirects ∧
    ∀ (e : Option Nat) (st2 : DashState),
      (checkAuthentication pj { st2 with store := { st2.store with tokenExpiry := e } }).1 =
        (checkAuthentication pj st2).1 := by
  have hc : truthy (some t) = true := by simp [truthy, ht]
  refine ⟨?_, ?_, ?_⟩
  · simp [checkAuthentication, h, hc]
  · simp only [checkAuthentication, h, hc, Bool.true_eq_false, if_false]
    split
    · split <;> rfl
    · rfl
  · intro e st2
    cases htr : truthy st2.store.sellerAuthToken <;>
      simp [checkAuthentication, htr]

/-- C10 witness: concrete stored session with a token and an expiry far in the
past still passes the startup gate. -/
theorem C10_startup_gate_witness :
    (checkAuthentication (fun s => some s)
      { c2Start with store := { c2Start.store with tokenExpiry := some 1 } }).1 = true := by
  have h := C10_startup_gate (fun s => some s)
    { c2Start with store := { c2Start.store with tokenExpiry := some 1 } } "T1"
    (by rfl) (by decide)
  exact h.1

/-! ## The api.js request layer and error-handler.js -/

/-- Final outcome of a `send` through the api.js axios instance
(src/assets/utils/api.js lines 5-32 plus src/assets/utils/error-handler.js).
`refErrThrown` models the 401 branch: `handleAuthError` awaits the undefined
identifier `refreshToken` (error-handler.js imports no such binding), the
thrown ReferenceError is caught, and the catch block then calls the equally
undefined `logout`, whose ReferenceError propagates to the caller. -/
inductive ApiOutcome where
  | success (body : String)
  | rejectedWith (r : ReqResult)
  | refErrThrown
deriving Repr, DecidableEq

/-- Trace of one api.js send: final outcome, total dispatch attempts, the
backoff delays awaited (milliseconds), and how many times the
"Network error. Please check your connection." notification was shown. -/
structure ApiRun where
  outcome : ApiOutcome
  attempts : Nat
  delays : List Nat
  netNotices : Nat
deriving Repr, DecidableEq

/-- A dispatch through plain `axios(config)`: the global axios instance has no
interceptors registered (they are registered on `axiosInstance` only), so the
result resolves or rejects raw, without re-entering `handleError`. -/
def plainAxios (env : Nat → ReqResult) (attempt : Nat) : ApiOutcome :=
  match env attempt with
  | .ok b => .success b
  | r => .rejectedWith r

/-- Model of `handleNetworkError(error, retryCount)` (error-handler.js lines 34-41):
if `retryCount < 3`, wait `1000 * (retryCount + 1)` ms and return
`axios(error.config)` — one plain-axios dispatch whose raw result becomes
the result of the handler (the incremented count is never passed on, and the retry
bypasses the interceptor); otherwise show the network-error notification and
reject with the original error. -/
def handleNetworkError (env : Nat → ReqResult) (attempt retryCount : Nat) : ApiRun :=
  if retryCount < 3 then
    { outcome := plainAxios env attempt
      attempts := 1
      delays := [1000 * (retryCount + 1)]
      netNotices := 0 }
  else
    { outcome := .rejectedWith .netFail, attempts := 0, delays := [], netNotices := 1 }

/-- Model of `handleError(error)` (error-handler.js lines 5-16), as invoked by the
response interceptor of the api.js axios instance on a rejected dispatch:
status 401 goes to `handleAuthError`; a message equal to the text Network Error goes
to `handleNetworkError` with the DEFAULT `retryCount = 0` (the call site
passes one argument); everything else is a generic error, notified and
rejected unchanged. -/
def handleError (env : Nat → ReqResult) (attempt : Nat) : ReqResult → ApiRun
  | .httpErr 401 => { outcome := .refErrThrown, attempts := 0, delays := [], netNotices := 0 }
  | .netFail => handleNetworkError env (attempt + 1) 0
  | r => { outcome := .rejectedWith r, attempts := 0, delays := [], netNotices := 0 }

/-- One send through the api.js `axiosInstance`: dispatch attempt 0; a
resolved response is returned as-is, a rejection enters the response
interceptor, which returns `handleError(error)`. -/
def sendApi (env : Nat → ReqResult) : ApiRun :=
  match env 0 with
  | .ok b => { outcome := .success b, attempts := 1, delays := [], netNotices := 0 }
  | r =>
    let run := handleError env 0 r
    { run with attempts := run.attempts + 1 }

/-- An environment in which every dispatch fails with a network-class
failure. -/
def allNetFail : Nat → ReqResult := fun _ => ReqResult.netFail

/-- C1: evaluated on a request whose every dispatch fails network-class, the
code performs only TWO total attempts with a single 1000 ms delay and surfaces
the raw second network failure without the NetworkError notification —
`retryCount` is never threaded through the retry (always the default 0) and
the retry `axios(error.config)` bypasses the interceptor — instead of the
claimed 3 attempts with 1000 ms and 2000 ms delays followed by a surfaced
NetworkError. -/
theorem C1_code_behavior :
    sendApi allNetFail =
      { outcome := .rejectedWith .netFail, attempts := 2, delays := [1000], netNotices := 0 } := by
  rfl

/-! ## Concurrent refresh triggers -/

/-- Shared bookkeeping for racing refresh triggers: how many refresh calls are
currently in flight and how many have been dispatched in total. -/
structure RefreshRace where
  inFlight : Nat
  dispatched : Nat
deriving Repr, DecidableEq

/-- The two suspension-separated phases of one refresh trigger: reaching the
`fetch(.../auth/refresh)` call, and that fetch settling. -/
inductive RStep where
  | start
  | finish
deriving Repr, DecidableEq

/-- Effect of one phase on the shared state. Neither
`AuthManager.refreshAuthToken` (api.js lines 74-95) nor the dashboard 401
handler (part_000 lines 29-58) consults or sets any in-flight flag before
calling `fetch`, so a trigger reaching its `start` phase dispatches a refresh
unconditionally, whatever else is in flight. -/
def raceStep (s : RefreshRace) : RStep → RefreshRace
  | .start => { inFlight := s.inFlight + 1, dispatched := s.dispatched + 1 }
  | .finish => { s with inFlight := s.inFlight - 1 }

/-- Run a cooperative schedule of trigger phases over the shared state. -/
def raceRun (s : RefreshRace) : List RStep → RefreshRace
  | [] => s
  | step :: rest => raceRun (raceStep s step) rest

/-- Helper: the number of refresh dispatches after any schedule is the initial
count plus the number of `start` phases executed. -/
lemma raceRun_dispatched (sched : List RStep) (s : RefreshRace) :
    (raceRun s sched).dispatched = s.dispatched + sched.count RStep.start := by
  induction sched generalizing s with
  | nil => simp [raceRun]
  | cons a rest ih =>
    cases a with
    | start => simp [raceRun, raceStep, ih, List.count_cons]; omega
    | finish => simp [raceRun, raceStep, ih, List.count_cons]

/-- The schedule in which both triggers reach their fetch before either fetch
settles — exactly the race of a proactive-timer refresh with a reactive
401-triggered one (or of two 401-triggered ones). -/
def bothTriggersOverlap : List RStep := [.start, .start, .finish, .finish]

/-- C8 counterexample: when two refresh triggers race, both refresh calls are
simultaneously in flight after the two `start` phases and two refresh calls
are dispatched in total, contradicting the claim that at most one refresh is
in flight and exactly one refresh call is dispatched. -/
theorem C8_counterexample :
    (raceRun ⟨0, 0⟩ [RStep.start, RStep.start]).inFlight = 2 ∧
    (raceRun ⟨0, 0⟩ bothTriggersOverlap).dispatched = 2 := by
  exact ⟨rfl, rfl⟩

/-- C8 amended: there is no in-flight refresh guard anywhere in the code, so
each trigger unconditionally dispatches its own refresh call: any schedule in
which two triggers each reach their fetch results in exactly two dispatched
refresh calls (one per trigger), not one. -/
theorem C8_no_refresh_guard (sched : List RStep) (s : RefreshRace)
    (h : sched.count RStep.start = 2) :
    (raceRun s sched).dispatched = s.dispatched + 2 := by
  rw [raceRun_dispatched, h]

/-- C8 witness: the overlapping two-trigger schedule dispatches two refresh
calls. -/
theorem C8_no_refresh_guard_witness :
    (raceRun ⟨0, 0⟩ bothTriggersOverlap).dispatched = 0 + 2 :=
  C8_no_refresh_guard bothTriggersOverlap ⟨0, 0⟩ (by decide)

end RipenRed
